import Mathlib

/-!
Shallow embedding of the recommendation engine of the FantasyFootballApp
repository: the deterministic ranking pipeline of
`app/packages/core/src/ranking.ts`, the player-pool resolution of the
`DraftBoard` component, and the error-handling skeleton of the AI
tie-breaker adapters (`OpenAIClient.getRecommendations` /
`AnthropicClient.getRecommendations`).

JavaScript numbers are modelled as rationals (`ℚ`), string-keyed records
as functions `String → Option ℚ` (a `none` result models an absent key;
the `|| default` idiom at a lookup site additionally maps a present `0`
to the default, and is modelled explicitly where it occurs), and optional
fields as `Option`.  `Array.prototype.sort` with the comparator
`(a, b) => b.score - a.score` is the stable descending sort by score,
modelled with `List.mergeSort`.
-/

namespace FantasyFootball

inductive InjuryStatus where
  | healthy
  | questionable
  | doubtful
  | out
deriving DecidableEq, Repr

inductive Strategy where
  | safe
  | balanced
  | upside
deriving DecidableEq, Repr

inductive Fit where
  | value
  | need
  | stack
  | upside
  | safe
deriving DecidableEq, Repr

structure Player where
  player_id : String
  full_name : String
  pos : String
  team : Option String
  adp : Option ℚ
  tier : Option ℕ
  projection_baseline : Option ℚ
  bye_week : Option ℕ
  injury_status : Option InjuryStatus
deriving DecidableEq, Repr

structure Pick where
  draft_id : String
  round : ℕ
  pick : ℕ
  pick_no : ℕ
  roster_id : ℤ
  player_id : String
  timestamp : ℕ
deriving DecidableEq, Repr

structure League where
  league_id : String
  name : String
  scoring_settings : List (String × ℚ)
  roster_positions : List String
  season : String
  sport : String
  status : String
deriving DecidableEq, Repr

structure Draft where
  draft_id : String
  league_id : String
  type : String
  rounds : ℕ
  draft_order : List (String × ℕ)
  status : String
deriving DecidableEq, Repr

structure Recommendation where
  player_id : String
  reason : String
  fit : Fit
  edge_vs_next : ℚ
  score : ℚ
  vorp : ℚ
  adp_discount : ℚ
  need_boost : ℚ
  scarcity_boost : ℚ
  bye_penalty : ℚ
  injury_penalty : ℚ
  upside_bonus : ℚ
deriving DecidableEq, Repr

structure RankingContext where
  remaining : List Player
  picks : List Pick
  roster_positions : List String
  scoring : List (String × ℚ)
  pick_no : ℚ
  strategy : Strategy
  team_on_clock : ℤ
  league : League
  draft : Draft
deriving DecidableEq, Repr

structure Weights where
  w1 : ℚ
  w2 : ℚ
  w3 : ℚ
  w4 : ℚ
  w5 : ℚ
  w6 : ℚ
  w7 : ℚ
deriving DecidableEq, Repr

/-- Default weights for different strategies. -/
def STRATEGY_WEIGHTS : Strategy → Weights
  | .safe => { w1 := 1.1, w2 := 0.30, w3 := 0.6, w4 := 0.25, w5 := 0.08, w6 := 0.18, w7 := 0.05 }
  | .balanced => { w1 := 1.0, w2 := 0.35, w3 := 0.5, w4 := 0.3, w5 := 0.05, w6 := 0.15, w7 := 0.1 }
  | .upside => { w1 := 1.0, w2 := 0.35, w3 := 0.4, w4 := 0.35, w5 := 0.03, w6 := 0.10, w7 := 0.25 }

/-- Replacement level baselines, keyed by position. -/
def REPLACEMENT_BASELINES (pos : String) : Option ℚ :=
  if pos = "QB" then some 200
  else if pos = "RB" then some 150
  else if pos = "WR" then some 140
  else if pos = "TE" then some 100
  else if pos = "K" then some 120
  else if pos = "DEF" then some 100
  else none

/-- Position scarcity tiers (a constant table in the source; not read by the scorer). -/
def POSITION_SCARCITY (pos : String) : Option ℚ :=
  if pos = "RB" then some 0.8
  else if pos = "TE" then some 0.6
  else if pos = "WR" then some 0.4
  else if pos = "QB" then some 0.3
  else if pos = "K" then some 0.1
  else if pos = "DEF" then some 0.2
  else none

/-- Roster need priority, keyed by position. -/
def ROSTER_NEED_PRIORITY (pos : String) : Option ℚ :=
  if pos = "QB" then some 0.8
  else if pos = "RB" then some 1.0
  else if pos = "WR" then some 1.0
  else if pos = "TE" then some 0.7
  else if pos = "K" then some 0.3
  else if pos = "DEF" then some 0.4
  else none

/-- `calculateVORP(player, scoring)`: `max(0, baseline - replacement)` with the
`|| 0` / `|| 100` defaults of the source.  The `scoring` argument is unused,
as in the source. -/
def calculateVORP (player : Player) (scoring : List (String × ℚ)) : ℚ :=
  let baseline := player.projection_baseline.getD 0
  let replacement := (REPLACEMENT_BASELINES player.pos).getD 100
  max 0 (baseline - replacement)

/-- `calculateADPDiscount(player, pickNo)`: 0 when `adp` is not a number. -/
def calculateADPDiscount (player : Player) (pickNo : ℚ) : ℚ :=
  match player.adp with
  | none => 0
  | some adp => max 0 (adp - pickNo)

/-- `calculateTeamNeeds(picks, rosterPositions, teamId)`.  The source counts
the drafted players of the team, attributing every pick to the placeholder
position `'RB'` (`const pos = 'RB'; // Placeholder`), then for every template
slot label other than `'BN'`/`'IR'` records
`max(0, required - current)`.  The result is the string-keyed record `needs`:
`none` models a key the loop never wrote. -/
def calculateTeamNeeds (picks : List Pick) (rosterPositions : List String)
    (teamId : ℤ) : String → Option ℚ :=
  let teamPicks := picks.filter (fun p => p.roster_id == teamId)
  let currentCounts : String → ℕ := fun pos => if pos = "RB" then teamPicks.length else 0
  fun pos =>
    if rosterPositions.contains pos ∧ pos ≠ "BN" ∧ pos ≠ "IR" then
      some (max 0 ((rosterPositions.countP (fun q => q == pos) : ℚ) - (currentCounts pos : ℚ)))
    else none

/-- `calculateNeedBoost(player, teamNeeds, rosterPositions)`; the
`rosterPositions` argument is unused, as in the source.  `|| 0` and `|| 0.5`
map both an absent key and a present `0` to the default. -/
def calculateNeedBoost (player : Player) (teamNeeds : String → Option ℚ)
    (rosterPositions : List String) : ℚ :=
  let need : ℚ :=
    match teamNeeds player.pos with
    | none => 0
    | some v => if v = 0 then 0 else v
  let priority : ℚ :=
    match ROSTER_NEED_PRIORITY player.pos with
    | none => 0.5
    | some v => if v = 0 then 0.5 else v
  need * priority

/-- `calculateScarcityBoost(player, scarcityMap)`: `(scarcityMap[pos] || 0.5) * 50`. -/
def calculateScarcityBoost (player : Player) (scarcityMap : String → Option ℚ) : ℚ :=
  let scarcity : ℚ :=
    match scarcityMap player.pos with
    | none => 0.5
    | some v => if v = 0 then 0.5 else v
  scarcity * 50

/-- `calculateByePenalty(player, picks, teamOnClock)`: returns 0 for a falsy
`bye_week`; otherwise counts the team's picks
(`sameByeCount = teamPicks.length; // Simplified - would check actual bye weeks`)
and applies the 20 / 10 / 0 step function to that count. -/
def calculateByePenalty (player : Player) (picks : List Pick) (teamOnClock : ℤ) : ℚ :=
  if player.bye_week.getD 0 = 0 then 0
  else
    let teamPicks := picks.filter (fun p => p.roster_id == teamOnClock)
    let sameByeCount := teamPicks.length
    if sameByeCount ≥ 3 then 20
    else if sameByeCount ≥ 2 then 10
    else 0

/-- `calculateInjuryPenalty(player)`. -/
def calculateInjuryPenalty (player : Player) : ℚ :=
  match player.injury_status with
  | some .out => 50
  | some .doubtful => 30
  | some .questionable => 15
  | _ => 0

/-- `calculateUpsideBonus(player)`: 0 for a falsy tier, else `(1 / tier) * 20`. -/
def calculateUpsideBonus (player : Player) : ℚ :=
  match player.tier with
  | none => 0
  | some t => if t = 0 then 0 else (1 / (t : ℚ)) * 20

/-- `calculatePositionalScarcity(remaining)`: per position present in the
remaining pool, combines inverse supply and inverse mean tier (tier mean over
the players with a truthy tier, defaulting to 10 when none), clamped to
`[0.1, 1.0]`.  Positions with no remaining player have no key (`none`). -/
def calculatePositionalScarcity (remaining : List Player) : String → Option ℚ :=
  fun pos =>
    let atPos := remaining.filter (fun p => p.pos == pos)
    if atPos.isEmpty then none
    else
      let count : ℚ := atPos.length
      let tiers := (atPos.filterMap Player.tier).filter (fun t => t ≠ 0)
      let avgTier : ℚ :=
        if tiers.isEmpty then 10
        else (tiers.map (fun (t : ℕ) => (t : ℚ))).sum / (tiers.length : ℚ)
      some (max 0.1 (min 1.0 ((1 / count) * 100 + (1 / avgTier) * 10)))

/-- `generateReason(player, vorp, adpDiscount, needBoost, scarcityBoost)`. -/
def generateReason (player : Player) (vorp adpDiscount needBoost scarcityBoost : ℚ) : String :=
  let reasons : List String :=
    (if vorp > 50 then ["High VORP"] else []) ++
    (if adpDiscount > 20 then ["ADP value"] else []) ++
    (if needBoost > 0.5 then ["Roster need"] else []) ++
    (if scarcityBoost > 25 then ["Position scarce"] else [])
  let reasons := if reasons.isEmpty then ["Solid pick"] else reasons
  String.intercalate ", " (reasons.take 2)

/-- `determineFit(player, needBoost, upsideBonus, strategy)`. -/
def determineFit (player : Player) (needBoost upsideBonus : ℚ) (strategy : Strategy) : Fit :=
  if needBoost > 0.8 then .need
  else if upsideBonus > 15 then .upside
  else if strategy = .safe then .safe
  else .value

/-- The body of the `remaining.map(player => ...)` closure of
`rankCandidates`, lambda-lifted: one scored `Recommendation` per candidate,
with `edge_vs_next` initialised to 0 (`// Will be calculated after sorting`). -/
def scoreCandidate (context : RankingContext) (player : Player) : Recommendation :=
  let weights := STRATEGY_WEIGHTS context.strategy
  let teamNeeds := calculateTeamNeeds context.picks context.roster_positions context.team_on_clock
  let scarcityMap := calculatePositionalScarcity context.remaining
  let vorp := calculateVORP player context.scoring
  let adpDiscount := calculateADPDiscount player context.pick_no
  let needBoost := calculateNeedBoost player teamNeeds context.roster_positions
  let scarcityBoost := calculateScarcityBoost player scarcityMap
  let byePenalty := calculateByePenalty player context.picks context.team_on_clock
  let injuryPenalty := calculateInjuryPenalty player
  let upsideBonus := calculateUpsideBonus player
  let score := vorp * weights.w1 +
               adpDiscount * weights.w2 +
               needBoost * weights.w3 +
               scarcityBoost * weights.w4 -
               byePenalty * weights.w5 -
               injuryPenalty * weights.w6 +
               upsideBonus * weights.w7
  { player_id := player.player_id
    reason := generateReason player vorp adpDiscount needBoost scarcityBoost
    fit := determineFit player needBoost upsideBonus context.strategy
    edge_vs_next := 0
    score := score
    vorp := vorp
    adp_discount := adpDiscount
    need_boost := needBoost
    scarcity_boost := scarcityBoost
    bye_penalty := byePenalty
    injury_penalty := injuryPenalty
    upside_bonus := upsideBonus }

/-- The comparator `(a, b) => b.score - a.score` of the stable
`Array.prototype.sort`: `a` stays before `b` exactly when
`b.score - a.score ≤ 0`. -/
def scoreDescending (a b : Recommendation) : Bool :=
  decide (b.score ≤ a.score)

/-- The `sorted.forEach((rec, index) => ...)` pass of `rankCandidates`:
the entry at index 0 gets `edge_vs_next = 0`, every later entry gets
`edge_vs_next = rec.score - sorted[index - 1].score`.  The first argument
carries the score of the previous entry (`none` at index 0). -/
def setEdges : Option ℚ → List Recommendation → List Recommendation
  | _, [] => []
  | none, rec :: rest =>
      { rec with edge_vs_next := 0 } :: setEdges (some rec.score) rest
  | some prev, rec :: rest =>
      { rec with edge_vs_next := rec.score - prev } :: setEdges (some rec.score) rest

/-- The scored list of `rankCandidates` before sorting. -/
def scoredRecs (context : RankingContext) : List Recommendation :=
  context.remaining.map (scoreCandidate context)

/-- The scored list after the stable descending sort by score. -/
def sortedRecs (context : RankingContext) : List Recommendation :=
  (scoredRecs context).mergeSort scoreDescending

/-- The sorted list after the `edge_vs_next` pass, before truncation. -/
def rankedAll (context : RankingContext) : List Recommendation :=
  setEdges none (sortedRecs context)

/-- `rankCandidates(context)`: score every remaining player, stable-sort by
score descending, assign `edge_vs_next`, return the top 12. -/
def rankCandidates (context : RankingContext) : List Recommendation :=
  (rankedAll context).take 12

/-- The `DraftBoard` player-pool resolution:
`draftedPlayerIds = new Set(picks.map(pick => pick.player_id))`;
`remainingPlayers = players.filter(player => !draftedPlayerIds.has(player.player_id))`. -/
def remainingPlayers (players : List Player) (picks : List Pick) : List Player :=
  let draftedPlayerIds := picks.map Pick.player_id
  players.filter (fun player => !(draftedPlayerIds.contains player.player_id))

/-- The `LLMRecommendation` record of the AI adapters. -/
structure LLMRecommendation where
  player_id : String
  reason : String
  fit : Fit
  edge_vs_next : ℚ
deriving DecidableEq, Repr

/-- Outcome of the single AI backend exchange inside the `try` block of
`getRecommendations`, as observed at the validation site:
`failure` covers every path that throws before the structure check (network
error, missing tool call, unparsable arguments); `response ranked` is a parsed
object whose `ranked` field is `none` when missing or not an array. -/
inductive AIOutcome where
  | failure
  | response (ranked : Option (List LLMRecommendation))
deriving DecidableEq, Repr

/-- The `catch` branch of `getRecommendations`:
`deterministicTop.slice(0, 8).map((rec, index) => ({...}))` with
`edge_vs_next: index === 0 ? 0 : rec.edge_vs_next`. -/
def fallbackRecommendations (deterministicTop : List Recommendation) : List LLMRecommendation :=
  (deterministicTop.take 8).enum.map (fun p =>
    { player_id := p.2.player_id
      reason := p.2.reason
      fit := p.2.fit
      edge_vs_next := if p.1 = 0 then 0 else p.2.edge_vs_next })

/-- `getRecommendations(context, deterministicTop)` of `OpenAIClient` and
`AnthropicClient`, with the AI exchange's outcome made explicit: every thrown
error (including the `'Invalid response structure from LLM'` throw on a
missing or non-array `ranked`) lands in the `catch` branch; a response whose
`ranked` array has fewer entries than `expectedCount = min(length, 8)` is only
warned about (`console.warn`) and is returned truncated, not replaced. -/
def getRecommendations (deterministicTop : List Recommendation)
    (outcome : AIOutcome) : List LLMRecommendation :=
  match outcome with
  | .failure => fallbackRecommendations deterministicTop
  | .response none => fallbackRecommendations deterministicTop
  | .response (some ranked) =>
      let expectedCount := min deterministicTop.length 8
      ranked.take expectedCount

/-! ## General lemmas about the pipeline -/

theorem setEdges_length : ∀ (o : Option ℚ) (l : List Recommendation),
    (setEdges o l).length = l.length := by
  intro o l
  induction l generalizing o with
  | nil => cases o <;> rfl
  | cons r rest ih => cases o <;> simp [setEdges, ih]

theorem setEdges_map_score : ∀ (o : Option ℚ) (l : List Recommendation),
    (setEdges o l).map Recommendation.score = l.map Recommendation.score := by
  intro o l
  induction l generalizing o with
  | nil => cases o <;> rfl
  | cons r rest ih => cases o <;> simp [setEdges, ih]

theorem setEdges_map_player_id : ∀ (o : Option ℚ) (l : List Recommendation),
    (setEdges o l).map Recommendation.player_id = l.map Recommendation.player_id := by
  intro o l
  induction l generalizing o with
  | nil => cases o <;> rfl
  | cons r rest ih => cases o <;> simp [setEdges, ih]

theorem scoreCandidate_player_id (context : RankingContext) (player : Player) :
    (scoreCandidate context player).player_id = player.player_id := rfl

theorem scoreCandidate_score (context : RankingContext) (player : Player) :
    (scoreCandidate context player).score =
      calculateVORP player context.scoring * (STRATEGY_WEIGHTS context.strategy).w1 +
      calculateADPDiscount player context.pick_no * (STRATEGY_WEIGHTS context.strategy).w2 +
      calculateNeedBoost player
        (calculateTeamNeeds context.picks context.roster_positions context.team_on_clock)
        context.roster_positions * (STRATEGY_WEIGHTS context.strategy).w3 +
      calculateScarcityBoost player (calculatePositionalScarcity context.remaining) *
        (STRATEGY_WEIGHTS context.strategy).w4 -
      calculateByePenalty player context.picks context.team_on_clock *
        (STRATEGY_WEIGHTS context.strategy).w5 -
      calculateInjuryPenalty player * (STRATEGY_WEIGHTS context.strategy).w6 +
      calculateUpsideBonus player * (STRATEGY_WEIGHTS context.strategy).w7 := rfl

theorem scoreDescending_trans (a b c : Recommendation) :
    scoreDescending a b → scoreDescending b c → scoreDescending a c := by
  simp only [scoreDescending, decide_eq_true_eq]
  exact fun h1 h2 => le_trans h2 h1

theorem scoreDescending_total (a b : Recommendation) :
    scoreDescending a b || scoreDescending b a := by
  simp only [scoreDescending, Bool.or_eq_true, decide_eq_true_eq]
  exact le_total b.score a.score

theorem sortedRecs_perm (context : RankingContext) :
    List.Perm (sortedRecs context) (scoredRecs context) :=
  List.mergeSort_perm (scoredRecs context) scoreDescending

theorem sortedRecs_pairwise (context : RankingContext) :
    List.Pairwise (fun a b => b.score ≤ a.score) (sortedRecs context) := by
  have h := List.sorted_mergeSort scoreDescending_trans scoreDescending_total
    (scoredRecs context)
  exact h.imp (fun hab => by simpa [scoreDescending] using hab)

theorem rankedAll_pairwise (context : RankingContext) :
    List.Pairwise (fun a b => b.score ≤ a.score) (rankedAll context) := by
  have h := sortedRecs_pairwise context
  have hmap : (rankedAll context).map Recommendation.score =
      (sortedRecs context).map Recommendation.score :=
    setEdges_map_score none (sortedRecs context)
  have h1 : List.Pairwise (fun a b : ℚ => b ≤ a)
      ((sortedRecs context).map Recommendation.score) :=
    List.pairwise_map.mpr h
  rw [← hmap] at h1
  exact List.pairwise_map.mp h1

theorem chain'_take {α : Type} {R : α → α → Prop} :
    ∀ (n : ℕ) (l : List α), List.Chain' R l → List.Chain' R (l.take n) := by
  intro n l
  induction l generalizing n with
  | nil => simp
  | cons a l ih =>
    intro h
    cases n with
    | zero => simp
    | succ m =>
      rw [List.take_succ_cons]
      cases l with
      | nil => simp
      | cons b l' =>
        rw [List.chain'_cons] at h
        cases m with
        | zero => simp
        | succ k =>
          rw [List.take_succ_cons]
          refine List.chain'_cons.mpr ⟨h.1, ?_⟩
          have h2 := ih (k + 1) h.2
          rwa [List.take_succ_cons] at h2

theorem chain'_setEdges_aux :
    ∀ (l : List Recommendation) (a a' : Recommendation), a'.score = a.score →
      List.Chain' (fun x y => y.score ≤ x.score) (a :: l) →
      List.Chain' (fun x y => y.edge_vs_next = y.score - x.score ∧ y.edge_vs_next ≤ 0)
        (a' :: setEdges (some a.score) l) := by
  intro l
  induction l with
  | nil => intro a a' _ _; simp [setEdges]
  | cons b rest ih =>
    intro a a' hs h
    rw [List.chain'_cons] at h
    rw [setEdges, List.chain'_cons]
    constructor
    · constructor
      · simp [hs]
      · simp [sub_nonpos, h.1]
    · exact ih b { b with edge_vs_next := b.score - a.score } rfl h.2

theorem chain'_setEdges (l : List Recommendation)
    (hl : List.Chain' (fun x y => y.score ≤ x.score) l) :
    List.Chain' (fun x y => y.edge_vs_next = y.score - x.score ∧ y.edge_vs_next ≤ 0)
      (setEdges none l) := by
  cases l with
  | nil => simp [setEdges]
  | cons r rest =>
    rw [setEdges]
    exact chain'_setEdges_aux rest r { r with edge_vs_next := 0 } rfl hl

theorem rankCandidates_mem_player_id (context : RankingContext) (r : Recommendation)
    (hr : r ∈ rankCandidates context) :
    r.player_id ∈ context.remaining.map Player.player_id := by
  have h1 : r ∈ rankedAll context :=
    (List.take_sublist 12 (rankedAll context)).subset hr
  have h2 : r.player_id ∈ (rankedAll context).map Recommendation.player_id :=
    List.mem_map_of_mem Recommendation.player_id h1
  simp only [rankedAll] at h2
  rw [setEdges_map_player_id] at h2
  have h3 : List.Perm ((sortedRecs context).map Recommendation.player_id)
      ((scoredRecs context).map Recommendation.player_id) :=
    (sortedRecs_perm context).map Recommendation.player_id
  rw [h3.mem_iff] at h2
  simpa [scoredRecs, scoreCandidate_player_id, Function.comp] using h2

/-! ## Concrete inputs -/

def pA : Player :=
  { player_id := "A", full_name := "Player A", pos := "RB", team := none,
    adp := none, tier := none, projection_baseline := some 250, bye_week := none,
    injury_status := none }

def pB : Player :=
  { pA with player_id := "B", full_name := "Player B", projection_baseline := some 150 }

def leagueA : League :=
  { league_id := "L1", name := "League One", scoring_settings := [],
    roster_positions := [], season := "2024", sport := "nfl", status := "in_progress" }

def draftA : Draft :=
  { draft_id := "D1", league_id := "L1", type := "snake", rounds := 15,
    draft_order := [], status := "in_progress" }

/-- A context with two RB candidates whose scores under `balanced` are 115
and 15: the scored list is already in descending score order. -/
def ctxA : RankingContext :=
  { remaining := [pA, pB], picks := [], roster_positions := [],
    scoring := [], pick_no := 1, strategy := .balanced, team_on_clock := 1,
    league := leagueA, draft := draftA }

theorem ctxA_scored_sorted :
    List.Pairwise (fun a b => scoreDescending a b) (scoredRecs ctxA) := by
  simp [scoredRecs, ctxA, scoreDescending, decide_eq_true_eq, scoreCandidate, calculateVORP,
    calculateADPDiscount, calculateNeedBoost, calculateScarcityBoost, calculateByePenalty,
    calculateInjuryPenalty, calculateUpsideBonus, calculateTeamNeeds, calculatePositionalScarcity,
    STRATEGY_WEIGHTS, REPLACEMENT_BASELINES, ROSTER_NEED_PRIORITY, pA, pB]
  norm_num

theorem ctxA_rankCandidates :
    rankCandidates ctxA = (setEdges none (scoredRecs ctxA)).take 12 := by
  simp only [rankCandidates, rankedAll, sortedRecs]
  rw [List.mergeSort_of_sorted ctxA_scored_sorted]

/-! ## Claim C1 -/

/-- Claim C1, counterexample: in `ctxA` the remaining pool is non-empty and
the second-ranked entry has `edge_vs_next = -100 < 0`, refuting
"every other entry has `edge_vs_next ≥ 0`". -/
theorem edge_vs_next_negative_example :
    ctxA.remaining ≠ [] ∧
    (rankCandidates ctxA).map (fun r => r.edge_vs_next) = [0, -100] ∧
    ¬ ((0 : ℚ) ≤ -100) := by
  refine ⟨by simp [ctxA], ?_, by norm_num⟩
  rw [ctxA_rankCandidates]
  simp [scoredRecs, ctxA, setEdges, scoreCandidate, calculateVORP,
    calculateADPDiscount, calculateNeedBoost, calculateScarcityBoost, calculateByePenalty,
    calculateInjuryPenalty, calculateUpsideBonus, calculateTeamNeeds, calculatePositionalScarcity,
    STRATEGY_WEIGHTS, REPLACEMENT_BASELINES, ROSTER_NEED_PRIORITY, pA, pB]
  norm_num

/-- Claim C1, amended: for a non-empty remaining pool the top-ranked entry has
`edge_vs_next = 0`, and every other entry has `edge_vs_next` equal to its own
score minus the previous entry's score — which is therefore non-positive
(`≤ 0`), not `≥ 0`. -/
theorem edge_vs_next_zero_head_and_diff_prev (ctx : RankingContext)
    (h : ctx.remaining ≠ []) :
    ∃ r rest, rankCandidates ctx = r :: rest ∧ r.edge_vs_next = 0 ∧
      List.Chain' (fun a b => b.edge_vs_next = b.score - a.score ∧ b.edge_vs_next ≤ 0)
        (rankCandidates ctx) := by
  have hlen : (sortedRecs ctx).length = ctx.remaining.length := by
    rw [(sortedRecs_perm ctx).length_eq]
    simp [scoredRecs]
  have hne : sortedRecs ctx ≠ [] := by
    intro hnil
    rw [hnil] at hlen
    exact h (List.length_eq_zero.mp hlen.symm)
  obtain ⟨s, rest', hcons⟩ := List.exists_cons_of_ne_nil hne
  have hchain : List.Chain' (fun x y => y.score ≤ x.score) (sortedRecs ctx) :=
    (sortedRecs_pairwise ctx).chain'
  have hchain2 := chain'_setEdges (sortedRecs ctx) hchain
  refine ⟨{ s with edge_vs_next := 0 }, (setEdges (some s.score) rest').take 11, ?_, rfl, ?_⟩
  · rw [rankCandidates, rankedAll, hcons, setEdges, List.take_succ_cons]
  · exact chain'_take 12 (rankedAll ctx) hchain2

/-- Witness for `edge_vs_next_zero_head_and_diff_prev` at the concrete
context `ctxA`. -/
theorem edge_vs_next_zero_head_and_diff_prev_witness :
    ∃ r rest, rankCandidates ctxA = r :: rest ∧ r.edge_vs_next = 0 ∧
      List.Chain' (fun a b => b.edge_vs_next = b.score - a.score ∧ b.edge_vs_next ≤ 0)
        (rankCandidates ctxA) :=
  edge_vs_next_zero_head_and_diff_prev ctxA (by simp [ctxA])

/-! ## Claim C2 -/

/-- The single pick of roster 1: player `"qb1"`, a quarterback in the intended
reading of the scenario. -/
def pickQB : Pick :=
  { draft_id := "D1", round := 1, pick := 1, pick_no := 1, roster_id := 1,
    player_id := "qb1", timestamp := 0 }

/-- Claim C2: evaluation of `calculateTeamNeeds` at the failing input.  With
roster 1 having drafted the quarterback `"qb1"` and a template `["QB", "RB"]`,
the code reports a remaining QB need of 1 (the drafted QB is not counted,
because every pick is attributed to the placeholder position `'RB'`) and an RB
need of 0 (the QB pick was counted as an RB); the claim requires need QB = 0
and need RB = 1, computed from the picked player's true position.  The
function does not even receive the player catalog, so the true position is
not recoverable from its inputs. -/
theorem calculateTeamNeeds_placeholder_eval :
    calculateTeamNeeds [pickQB] ["QB", "RB"] 1 "QB" = some 1 ∧
    calculateTeamNeeds [pickQB] ["QB", "RB"] 1 "RB" = some 0 := by
  constructor <;>
    (simp [calculateTeamNeeds, pickQB, List.countP_cons]; try norm_num)

/-! ## Claim C4 -/

/-- A wide receiver with bye week 5. -/
def pBye : Player :=
  { player_id := "W", full_name := "Player W", pos := "WR", team := none,
    adp := none, tier := none, projection_baseline := some 150, bye_week := some 5,
    injury_status := none }

def pickX1 : Pick :=
  { draft_id := "D1", round := 1, pick := 1, pick_no := 1, roster_id := 1,
    player_id := "x1", timestamp := 0 }

def pickX2 : Pick :=
  { draft_id := "D1", round := 2, pick := 1, pick_no := 2, roster_id := 1,
    player_id := "x2", timestamp := 1 }

/-- Claim C4: evaluation of `calculateByePenalty` at the failing input.  The
candidate has bye week 5 and roster 1 has drafted two players (`"x1"`, `"x2"`,
whose bye weeks are not — and cannot be — consulted: the pick log carries no
bye-week data and the function receives no player catalog).  The code returns
penalty 10 purely because the roster has two picks; the claim requires 0
whenever no drafted player shares bye week 5. -/
theorem calculateByePenalty_roster_size_eval :
    calculateByePenalty pBye [pickX1, pickX2] 1 = 10 := by
  simp [calculateByePenalty, pBye, pickX1, pickX2]

/-! ## Claim C3 -/

def recA : Recommendation :=
  { player_id := "A", reason := "Solid pick", fit := .value, edge_vs_next := 0,
    score := 10, vorp := 1, adp_discount := 2, need_boost := 3, scarcity_boost := 4,
    bye_penalty := 0, injury_penalty := 0, upside_bonus := 0 }

def recB : Recommendation :=
  { recA with player_id := "B", edge_vs_next := -1, score := 9 }

def aiZ : LLMRecommendation :=
  { player_id := "Z", reason := "AI pick", fit := .upside, edge_vs_next := 1 }

/-- Claim C3, counterexample: with two supplied candidates, a well-formed AI
response containing only one entry is returned as-is (after a `console.warn`),
not replaced by the deterministic fallback — the output has one entry while
the deterministic fallback has two. -/
theorem getRecommendations_short_response_example :
    [aiZ].length < min [recA, recB].length 8 ∧
    getRecommendations [recA, recB] (AIOutcome.response (some [aiZ])) = [aiZ] ∧
    getRecommendations [recA, recB] (AIOutcome.response (some [aiZ])) ≠
      fallbackRecommendations [recA, recB] := by
  refine ⟨by simp, by simp [getRecommendations], ?_⟩
  intro hcontra
  have hlen := congrArg List.length hcontra
  simp [getRecommendations, fallbackRecommendations, List.enum] at hlen

theorem fallbackRecommendations_fields_aux :
    ∀ (l : List Recommendation) (n : ℕ),
      ((l.enumFrom n).map (fun p =>
        ({ player_id := p.2.player_id, reason := p.2.reason, fit := p.2.fit,
           edge_vs_next := if p.1 = 0 then 0 else p.2.edge_vs_next } : LLMRecommendation))).map
        (fun r => (r.player_id, r.reason, r.fit)) =
      l.map (fun r => (r.player_id, r.reason, r.fit)) := by
  intro l
  induction l with
  | nil => intro n; rfl
  | cons r rest ih => intro n; simp [List.enumFrom, ih]

/-- Claim C3, amended: for every deterministic top list, a thrown failure
(network error, missing tool call, unparsable arguments) and a parsed response
whose `ranked` field is missing or not an array are both answered by the
deterministic fallback, whose entries carry exactly the deterministic
`player_id`, `reason` and `fit` of the first eight deterministic entries, with
no error surfaced to the caller; a response that merely contains fewer entries
than the number of supplied candidates is, however, returned truncated as-is
(only a console warning), not replaced by the deterministic ordering. -/
theorem getRecommendations_failure_fallback (det : List Recommendation) :
    getRecommendations det AIOutcome.failure = fallbackRecommendations det ∧
    getRecommendations det (AIOutcome.response none) = fallbackRecommendations det ∧
    (fallbackRecommendations det).map (fun r => (r.player_id, r.reason, r.fit)) =
      (det.take 8).map (fun r => (r.player_id, r.reason, r.fit)) := by
  refine ⟨rfl, rfl, ?_⟩
  simpa [fallbackRecommendations, List.enum] using
    fallbackRecommendations_fields_aux (det.take 8) 0

/-- Witness for `getRecommendations_failure_fallback` at the concrete
deterministic list `[recA, recB]`. -/
theorem getRecommendations_failure_fallback_witness :
    getRecommendations [recA, recB] AIOutcome.failure = fallbackRecommendations [recA, recB] ∧
    getRecommendations [recA, recB] (AIOutcome.response none) =
      fallbackRecommendations [recA, recB] ∧
    (fallbackRecommendations [recA, recB]).map (fun r => (r.player_id, r.reason, r.fit)) =
      ([recA, recB].take 8).map (fun r => (r.player_id, r.reason, r.fit)) :=
  getRecommendations_failure_fallback [recA, recB]

/-! ## Claim C5 -/

/-- Claim C5: the output of `rankCandidates` has length at most 12 and at most
the size of the remaining pool, it is sorted by score in descending order, and
the sort is stable: any score-descending sublist of the scored candidate list
(in particular any run of equal-score candidates in their original pool order)
survives as a sublist of the sorted-and-edged list `rankedAll`. -/
theorem rankCandidates_length_sorted_stable (ctx : RankingContext) :
    (rankCandidates ctx).length ≤ 12 ∧
    (rankCandidates ctx).length ≤ ctx.remaining.length ∧
    List.Pairwise (fun a b => b.score ≤ a.score) (rankCandidates ctx) ∧
    ∀ c : List Recommendation, List.Sublist c (scoredRecs ctx) →
      List.Pairwise (fun a b => b.score ≤ a.score) c →
      List.Sublist (c.map Recommendation.player_id)
        ((rankedAll ctx).map Recommendation.player_id) := by
  have hlenAll : (rankedAll ctx).length = ctx.remaining.length := by
    rw [rankedAll, setEdges_length, (sortedRecs_perm ctx).length_eq]
    simp [scoredRecs]
  refine ⟨List.length_take_le 12 _, ?_, ?_, ?_⟩
  · rw [rankCandidates, List.length_take, ← hlenAll]
    exact min_le_right _ _
  · exact List.Pairwise.sublist (List.take_sublist 12 _) (rankedAll_pairwise ctx)
  · intro c hsub hpair
    have hpair' : List.Pairwise (fun a b => scoreDescending a b) c :=
      hpair.imp (fun hab => by simpa [scoreDescending] using hab)
    have hc : List.Sublist c (sortedRecs ctx) :=
      List.sublist_mergeSort scoreDescending_trans scoreDescending_total hpair' hsub
    have hmap := hc.map Recommendation.player_id
    rwa [rankedAll, setEdges_map_player_id]

/-- Witness for `rankCandidates_length_sorted_stable` at the concrete context
`ctxA`, instantiating the stability clause with the singleton sublist holding
the first scored candidate. -/
theorem rankCandidates_length_sorted_stable_witness :
    (rankCandidates ctxA).length ≤ 12 ∧
    (rankCandidates ctxA).length ≤ ctxA.remaining.length ∧
    List.Pairwise (fun a b => b.score ≤ a.score) (rankCandidates ctxA) ∧
    List.Sublist ([scoreCandidate ctxA pA].map Recommendation.player_id)
      ((rankedAll ctxA).map Recommendation.player_id) := by
  obtain ⟨h1, h2, h3, h4⟩ := rankCandidates_length_sorted_stable ctxA
  refine ⟨h1, h2, h3, h4 [scoreCandidate ctxA pA] ?_ (List.pairwise_singleton _ _)⟩
  show List.Sublist [scoreCandidate ctxA pA]
    [scoreCandidate ctxA pA, scoreCandidate ctxA pB]
  exact List.Sublist.cons₂ _ (List.nil_sublist _)

/-! ## Claim C6 -/

/-- Claim C6: `rankCandidates` is a pure function of the `RankingContext`
snapshot: two contexts that agree on every field produce identical outputs.
(In this embedding the context is a value, so the source's non-mutation of
`remaining` and `picks` is inherent: the source only sorts and updates the
freshly allocated array produced by `remaining.map`.) -/
theorem rankCandidates_pure_function (c1 c2 : RankingContext)
    (h : c1.remaining = c2.remaining ∧ c1.picks = c2.picks ∧
         c1.roster_positions = c2.roster_positions ∧ c1.scoring = c2.scoring ∧
         c1.pick_no = c2.pick_no ∧ c1.strategy = c2.strategy ∧
         c1.team_on_clock = c2.team_on_clock ∧ c1.league = c2.league ∧
         c1.draft = c2.draft) :
    rankCandidates c1 = rankCandidates c2 := by
  obtain ⟨h1, h2, h3, h4, h5, h6, h7, h8, h9⟩ := h
  have hc : c1 = c2 := by cases c1; cases c2; simp_all
  rw [hc]

/-- Witness for `rankCandidates_pure_function`: the concrete context `ctxA`
compared with itself. -/
theorem rankCandidates_pure_function_witness :
    rankCandidates ctxA = rankCandidates ctxA :=
  rankCandidates_pure_function ctxA ctxA ⟨rfl, rfl, rfl, rfl, rfl, rfl, rfl, rfl, rfl⟩

/-! ## Claim C7 -/

/-- Claim C7: the remaining pool is the set difference of the player catalog
and the drafted-player identities of the pick log (an empty catalog yields an
empty pool), every `player_id` in the output of `rankCandidates` comes from
the remaining pool of its context, and hence no drafted player's identity ever
appears in the output. -/
theorem rankCandidates_excludes_drafted (catalog : List Player) (ctx : RankingContext)
    (h : ctx.remaining = remainingPlayers catalog ctx.picks) :
    remainingPlayers ([] : List Player) ctx.picks = [] ∧
    (∀ p : Player, p ∈ remainingPlayers catalog ctx.picks ↔
      p ∈ catalog ∧ p.player_id ∉ ctx.picks.map Pick.player_id) ∧
    (∀ r ∈ rankCandidates ctx, r.player_id ∈ ctx.remaining.map Player.player_id) ∧
    (∀ r ∈ rankCandidates ctx, r.player_id ∉ ctx.picks.map Pick.player_id) := by
  have hmemiff : ∀ p : Player, p ∈ remainingPlayers catalog ctx.picks ↔
      p ∈ catalog ∧ p.player_id ∉ ctx.picks.map Pick.player_id := by
    intro p
    simp [remainingPlayers, List.mem_filter]
  refine ⟨rfl, hmemiff, fun r hr => rankCandidates_mem_player_id ctx r hr, ?_⟩
  intro r hr hpid
  have h1 := rankCandidates_mem_player_id ctx r hr
  rw [h] at h1
  obtain ⟨q, hq, hqid⟩ := List.mem_map.mp h1
  exact ((hmemiff q).mp hq).2 (hqid ▸ hpid)

def pickB : Pick :=
  { draft_id := "D1", round := 1, pick := 1, pick_no := 1, roster_id := 2,
    player_id := "B", timestamp := 0 }

def catalogW : List Player := [pA, pB]

/-- The context whose remaining pool is resolved from the catalog
`[pA, pB]` after roster 2 drafted player `"B"`. -/
def ctxB : RankingContext :=
  { ctxA with remaining := remainingPlayers catalogW [pickB], picks := [pickB] }

/-- Witness for `rankCandidates_excludes_drafted` at the concrete catalog
`[pA, pB]` and the context `ctxB`. -/
theorem rankCandidates_excludes_drafted_witness :
    remainingPlayers ([] : List Player) ctxB.picks = [] ∧
    (∀ p : Player, p ∈ remainingPlayers catalogW ctxB.picks ↔
      p ∈ catalogW ∧ p.player_id ∉ ctxB.picks.map Pick.player_id) ∧
    (∀ r ∈ rankCandidates ctxB, r.player_id ∈ ctxB.remaining.map Player.player_id) ∧
    (∀ r ∈ rankCandidates ctxB, r.player_id ∉ ctxB.picks.map Pick.player_id) :=
  rankCandidates_excludes_drafted catalogW ctxB rfl

/-! ## Claim C8 -/

/-- Claim C8: for every context and every candidate, the variant whose
`injury_status` is `'out'` scores exactly `50 * w6` lower than the otherwise
identical healthy variant (the injury penalties being out = 50, doubtful = 30,
questionable = 15, healthy = 0), and therefore strictly lower, `w6` being
positive for every strategy. -/
theorem injury_out_scores_lower (ctx : RankingContext) (p : Player) :
    (scoreCandidate ctx { p with injury_status := some InjuryStatus.out }).score =
      (scoreCandidate ctx { p with injury_status := some InjuryStatus.healthy }).score -
        50 * (STRATEGY_WEIGHTS ctx.strategy).w6 ∧
    (scoreCandidate ctx { p with injury_status := some InjuryStatus.out }).score <
      (scoreCandidate ctx { p with injury_status := some InjuryStatus.healthy }).score := by
  have hw6 : 0 < (STRATEGY_WEIGHTS ctx.strategy).w6 := by
    cases ctx.strategy <;> norm_num [STRATEGY_WEIGHTS]
  have hv : calculateVORP { p with injury_status := some InjuryStatus.out } ctx.scoring =
      calculateVORP { p with injury_status := some InjuryStatus.healthy } ctx.scoring := rfl
  have ha : calculateADPDiscount { p with injury_status := some InjuryStatus.out } ctx.pick_no =
      calculateADPDiscount { p with injury_status := some InjuryStatus.healthy } ctx.pick_no := rfl
  have hn : calculateNeedBoost { p with injury_status := some InjuryStatus.out }
        (calculateTeamNeeds ctx.picks ctx.roster_positions ctx.team_on_clock)
        ctx.roster_positions =
      calculateNeedBoost { p with injury_status := some InjuryStatus.healthy }
        (calculateTeamNeeds ctx.picks ctx.roster_positions ctx.team_on_clock)
        ctx.roster_positions := rfl
  have hs : calculateScarcityBoost { p with injury_status := some InjuryStatus.out }
        (calculatePositionalScarcity ctx.remaining) =
      calculateScarcityBoost { p with injury_status := some InjuryStatus.healthy }
        (calculatePositionalScarcity ctx.remaining) := rfl
  have hb : calculateByePenalty { p with injury_status := some InjuryStatus.out }
        ctx.picks ctx.team_on_clock =
      calculateByePenalty { p with injury_status := some InjuryStatus.healthy }
        ctx.picks ctx.team_on_clock := rfl
  have hu : calculateUpsideBonus { p with injury_status := some InjuryStatus.out } =
      calculateUpsideBonus { p with injury_status := some InjuryStatus.healthy } := rfl
  have hio : calculateInjuryPenalty { p with injury_status := some InjuryStatus.out } = 50 := rfl
  have hih : calculateInjuryPenalty { p with injury_status := some InjuryStatus.healthy } = 0 := rfl
  rw [scoreCandidate_score, scoreCandidate_score, hv, ha, hn, hs, hb, hu, hio, hih]
  constructor
  · ring
  · have h50 : (0 : ℚ) < 50 * (STRATEGY_WEIGHTS ctx.strategy).w6 := by positivity
    linarith

/-- Witness for `injury_out_scores_lower` at the concrete context `ctxA` and
candidate `pA`. -/
theorem injury_out_scores_lower_witness :
    (scoreCandidate ctxA { pA with injury_status := some InjuryStatus.out }).score =
      (scoreCandidate ctxA { pA with injury_status := some InjuryStatus.healthy }).score -
        50 * (STRATEGY_WEIGHTS ctxA.strategy).w6 ∧
    (scoreCandidate ctxA { pA with injury_status := some InjuryStatus.out }).score <
      (scoreCandidate ctxA { pA with injury_status := some InjuryStatus.healthy }).score :=
  injury_out_scores_lower ctxA pA

/-! ## Claim C9 -/

/-- The six known positions of the `Player.pos` enum. -/
def KNOWN_POSITIONS : List String := ["QB", "RB", "WR", "TE", "K", "DEF"]

/-- A candidate with an unknown position label. -/
def pU : Player :=
  { player_id := "U", full_name := "Player U", pos := "XX", team := none,
    adp := none, tier := none, projection_baseline := some 130, bye_week := none,
    injury_status := none }

/-- A context whose only remaining candidate has the unknown position
`"XX"`. -/
def ctxU : RankingContext :=
  { ctxA with remaining := [pU], roster_positions := ["QB", "RB"] }

/-- Claim C9, counterexample: the unknown-position candidate is the sole
remaining player, so the scarcity map has a computed entry for `"XX"`
(supply 1, tier sentinel 10, clamped to 1.0) and the candidate's scarcity
boost is `1.0 * 50 = 50`, not the `0.5 * 50 = 25` the claimed scarcity
default of 0.5 would give. -/
theorem unknown_position_scarcity_example :
    pU.pos ∉ KNOWN_POSITIONS ∧
    (rankCandidates ctxU).map (fun r => r.scarcity_boost) = [50] ∧
    (50 : ℚ) ≠ 0.5 * 50 := by
  refine ⟨by decide, ?_, by norm_num⟩
  have hsorted : List.Pairwise (fun a b => scoreDescending a b) (scoredRecs ctxU) := by
    simp [scoredRecs, ctxU, ctxA]
  simp only [rankCandidates, rankedAll, sortedRecs]
  rw [List.mergeSort_of_sorted hsorted]
  simp [scoredRecs, ctxU, ctxA, setEdges, scoreCandidate, calculateScarcityBoost,
    calculatePositionalScarcity, pU]
  norm_num

/-- If some player in the pool has the given position, the scarcity map has a
computed entry for it, at least the lower clamp 0.1. -/
theorem calculatePositionalScarcity_some_of_mem (remaining : List Player) (pos : String)
    (h : ∃ p ∈ remaining, p.pos = pos) :
    ∃ v, calculatePositionalScarcity remaining pos = some v ∧ (1 / 10 : ℚ) ≤ v := by
  obtain ⟨p, hp, hpp⟩ := h
  have hin : p ∈ remaining.filter (fun q => q.pos == pos) :=
    List.mem_filter.mpr ⟨hp, by simp [hpp]⟩
  have hempty : (remaining.filter (fun q => q.pos == pos)).isEmpty = false := by
    simpa [List.isEmpty_iff] using List.ne_nil_of_mem hin
  simp only [calculatePositionalScarcity, hempty, Bool.false_eq_true, if_false]
  refine ⟨_, rfl, ?_⟩
  have h01 : (1 / 10 : ℚ) = 0.1 := by norm_num
  rw [h01]
  exact le_max_left _ _

/-- Claim C9, amended: a candidate in the pool with a missing or unknown
position is still scored (its entry is in the scored list and may appear in
the output), with the replacement baseline defaulting to 100 for VORP and the
need priority defaulting to 0.5; its scarcity, however, is not the absent-key
default 0.5 but is computed from the remaining pool like any other position,
since the candidate itself puts its position into the scarcity map (the 0.5
default can only apply to a position absent from the pool). -/
theorem unknown_position_scored_with_defaults (ctx : RankingContext) (p : Player)
    (hmem : p ∈ ctx.remaining) (hpos : p.pos ∉ KNOWN_POSITIONS) :
    scoreCandidate ctx p ∈ scoredRecs ctx ∧
    (scoreCandidate ctx p).vorp = max 0 (p.projection_baseline.getD 0 - 100) ∧
    (scoreCandidate ctx p).need_boost =
      (match calculateTeamNeeds ctx.picks ctx.roster_positions ctx.team_on_clock p.pos with
        | none => 0
        | some v => if v = 0 then 0 else v) * (1 / 2) ∧
    ∃ v, calculatePositionalScarcity ctx.remaining p.pos = some v ∧ (1 / 10 : ℚ) ≤ v ∧
      (scoreCandidate ctx p).scarcity_boost = v * 50 := by
  simp only [KNOWN_POSITIONS, List.mem_cons, List.mem_singleton, not_or] at hpos
  obtain ⟨hq1, hq2, hq3, hq4, hq5, hq6, -⟩ := hpos
  have hrb : REPLACEMENT_BASELINES p.pos = none := by
    simp [REPLACEMENT_BASELINES, hq1, hq2, hq3, hq4, hq5, hq6]
  have hpr : ROSTER_NEED_PRIORITY p.pos = none := by
    simp [ROSTER_NEED_PRIORITY, hq1, hq2, hq3, hq4, hq5, hq6]
  obtain ⟨v, hv, hv10⟩ :=
    calculatePositionalScarcity_some_of_mem ctx.remaining p.pos ⟨p, hmem, rfl⟩
  refine ⟨?_, ?_, ?_, v, hv, hv10, ?_⟩
  · exact List.mem_map_of_mem (scoreCandidate ctx) hmem
  · have hvorp : (scoreCandidate ctx p).vorp = calculateVORP p ctx.scoring := rfl
    rw [hvorp]
    simp [calculateVORP, hrb]
  · have hn : (scoreCandidate ctx p).need_boost =
        calculateNeedBoost p
          (calculateTeamNeeds ctx.picks ctx.roster_positions ctx.team_on_clock)
          ctx.roster_positions := rfl
    rw [hn]
    simp only [calculateNeedBoost, hpr]
    norm_num
  · have hb : (scoreCandidate ctx p).scarcity_boost =
        calculateScarcityBoost p (calculatePositionalScarcity ctx.remaining) := rfl
    have hvne : v ≠ 0 := (lt_of_lt_of_le (by norm_num : (0 : ℚ) < 1 / 10) hv10).ne'
    rw [hb]
    simp only [calculateScarcityBoost, hv]
    rw [if_neg hvne]

/-- Witness for `unknown_position_scored_with_defaults` at the concrete
context `ctxU` and candidate `pU`. -/
theorem unknown_position_scored_with_defaults_witness :
    scoreCandidate ctxU pU ∈ scoredRecs ctxU ∧
    (scoreCandidate ctxU pU).vorp = max 0 (pU.projection_baseline.getD 0 - 100) ∧
    (scoreCandidate ctxU pU).need_boost =
      (match calculateTeamNeeds ctxU.picks ctxU.roster_positions ctxU.team_on_clock pU.pos with
        | none => 0
        | some v => if v = 0 then 0 else v) * (1 / 2) ∧
    ∃ v, calculatePositionalScarcity ctxU.remaining pU.pos = some v ∧ (1 / 10 : ℚ) ≤ v ∧
      (scoreCandidate ctxU pU).scarcity_boost = v * 50 :=
  unknown_position_scored_with_defaults ctxU pU (by simp [ctxU, ctxA]) (by decide)

/-! ## Claim C10 -/

theorem length_le_sum_of_ne_zero :
    ∀ ts : List ℕ, (∀ t ∈ ts, t ≠ 0) → ((ts.length : ℚ)) ≤ (ts.map (fun (t : ℕ) => (t : ℚ))).sum := by
  intro ts
  induction ts with
  | nil => simp
  | cons t rest ih =>
    intro h
    have ht : (1 : ℚ) ≤ (t : ℚ) := by
      have : 1 ≤ t := Nat.one_le_iff_ne_zero.mpr (h t (List.mem_cons_self t rest))
      exact_mod_cast this
    have hrest := ih (fun x hx => h x (List.mem_cons_of_mem t hx))
    simp only [List.length_cons, List.map_cons, List.sum_cons]
    push_cast
    linarith

/-- Claim C10: when a position has between 1 and 100 remaining players, the
computed scarcity is exactly 1.0 — the inverse-supply term `(1/count) * 100`
alone is already at least 1 and the tier term is positive, so the upper clamp
fires regardless of the quality tiers — and hence every candidate at that
position gets scarcity boost exactly 50. -/
theorem scarcity_one_for_small_counts (remaining : List Player) (pos : String)
    (h1 : 1 ≤ (remaining.filter (fun p => p.pos == pos)).length)
    (h100 : (remaining.filter (fun p => p.pos == pos)).length ≤ 100) :
    calculatePositionalScarcity remaining pos = some 1 ∧
    ∀ p : Player, p.pos = pos →
      calculateScarcityBoost p (calculatePositionalScarcity remaining) = 50 := by
  have hnil : remaining.filter (fun p => p.pos == pos) ≠ [] := by
    intro hn
    rw [hn] at h1
    simp at h1
  have hempty : (remaining.filter (fun p => p.pos == pos)).isEmpty = false := by
    simpa [List.isEmpty_iff] using hnil
  have hcount : (0 : ℚ) < ((remaining.filter (fun p => p.pos == pos)).length : ℚ) := by
    have : 0 < (remaining.filter (fun p => p.pos == pos)).length := h1
    exact_mod_cast this
  have hterm1 : (1 : ℚ) ≤
      (1 / ((remaining.filter (fun p => p.pos == pos)).length : ℚ)) * 100 := by
    rw [one_div, inv_mul_eq_div, le_div_iff hcount, one_mul]
    exact_mod_cast h100
  have hsome : calculatePositionalScarcity remaining pos = some 1 := by
    simp only [calculatePositionalScarcity, hempty, Bool.false_eq_true, if_false]
    congr 1
    set tiers := ((remaining.filter (fun p => p.pos == pos)).filterMap Player.tier).filter
      (fun t => t ≠ 0) with htiers
    have havg : (0 : ℚ) <
        (if tiers.isEmpty then (10 : ℚ)
         else (tiers.map (fun (t : ℕ) => (t : ℚ))).sum / (tiers.length : ℚ)) := by
      split
      · norm_num
      · next hne =>
        have htnil : tiers ≠ [] := by
          intro hn
          rw [hn] at hne
          simp at hne
        have hlpos : (0 : ℚ) < (tiers.length : ℚ) := by
          have : 0 < tiers.length := List.length_pos.mpr htnil
          exact_mod_cast this
        have hsum : ((tiers.length : ℚ)) ≤ (tiers.map (fun (t : ℕ) => (t : ℚ))).sum := by
          apply length_le_sum_of_ne_zero
          intro t ht
          have := List.of_mem_filter ht
          simpa using this
        exact div_pos (lt_of_lt_of_le hlpos hsum) hlpos
    have hterm2 : (0 : ℚ) ≤
        (1 / (if tiers.isEmpty then (10 : ℚ)
              else (tiers.map (fun (t : ℕ) => (t : ℚ))).sum / (tiers.length : ℚ))) * 10 := by
      have h1a := one_div_pos.mpr havg
      positivity
    have hge1 : (1 : ℚ) ≤
        (1 / ((remaining.filter (fun p => p.pos == pos)).length : ℚ)) * 100 +
        (1 / (if tiers.isEmpty then (10 : ℚ)
              else (tiers.map (fun (t : ℕ) => (t : ℚ))).sum / (tiers.length : ℚ))) * 10 := by
      linarith
    have hmin : min (1.0 : ℚ)
        ((1 / ((remaining.filter (fun p => p.pos == pos)).length : ℚ)) * 100 +
         (1 / (if tiers.isEmpty then (10 : ℚ)
               else (tiers.map (fun (t : ℕ) => (t : ℚ))).sum / (tiers.length : ℚ))) * 10) = 1 := by
      rw [min_eq_left]
      · norm_num
      · calc (1.0 : ℚ) = 1 := by norm_num
          _ ≤ _ := hge1
    rw [hmin]
    rw [max_eq_right]
    norm_num
  refine ⟨hsome, ?_⟩
  intro p hp
  simp only [calculateScarcityBoost, hp, hsome]
  norm_num

/-- Witness for `scarcity_one_for_small_counts`: the pool `[pA, pB]` has two
remaining RBs, so the RB scarcity is exactly 1 and the RB candidate `pA` gets
scarcity boost 50. -/
theorem scarcity_one_for_small_counts_witness :
    calculatePositionalScarcity [pA, pB] "RB" = some 1 ∧
    calculateScarcityBoost pA (calculatePositionalScarcity [pA, pB]) = 50 := by
  obtain ⟨h1, h2⟩ := scarcity_one_for_small_counts [pA, pB] "RB" (by decide) (by decide)
  exact ⟨h1, h2 pA rfl⟩

end FantasyFootball
